import Mathlib

/-!
# SettingsScreen.js: a shallow embedding

The screen of `src/screens/SettingsScreen.js` keeps one piece of state, the
`settings` object, and derives everything it shows from that object, from the
imported flag `isIOS` and from the imported palette `getCurrentPlatformColors()`.

JavaScript values and plain objects are modelled directly:

* `JsVal` is the set of values the screen handles, with `truthy` for the
  `ToBoolean` conversion used by `!` and `? :`;
* `Obj` is a plain object: its own properties in insertion order, no key twice;
  property reads fall back on `Object.prototype`;
* `isIOS` and `baseColors` come from `../utils/platform`, which is another
  module: they are parameters of every definition that reads them.
-/

namespace SettingsScreen

/-! ## JavaScript values -/

/-- The JavaScript values that occur on the screen. `num` covers the integral
numbers; `ref` is a reference to an object or a function, named by a tag. -/
inductive JsVal where
  | undefined
  | null
  | bool (b : Bool)
  | num (n : Int)
  | str (s : String)
  | ref (tag : String)
  deriving DecidableEq, Repr

namespace JsVal

/-- The `ToBoolean` conversion: what `? :` and `!` test. -/
def truthy : JsVal → Bool
  | undefined => false
  | null => false
  | bool b => b
  | num n => n != 0
  | str s => s != ""
  | ref _ => true

/-- The unary `!` operator. -/
def not (v : JsVal) : JsVal := bool (!v.truthy)

end JsVal

/-! ## Plain objects -/

/-- Own properties of an object, in insertion order. -/
abbrev Props := List (String × JsVal)

namespace Props

/-- Own-property lookup. -/
def getOwn : Props → String → Option JsVal
  | [], _ => none
  | (k', v') :: rest, k => if k' = k then some v' else getOwn rest k

end Props

/-- A plain object: own properties in insertion order (the order JavaScript
keeps for string keys that are not array indices), no key twice. Its prototype
is `Object.prototype`. -/
structure Obj where
  props : Props
  nodup : (props.map Prod.fst).Nodup

namespace Obj

instance : DecidableEq Obj := fun a b =>
  decidable_of_iff (a.props = b.props) (by cases a; cases b; simp)

/-- The empty object literal. -/
def empty : Obj := ⟨[], List.nodup_nil⟩

/-- Own keys in order (`Object.keys`). -/
def keys (o : Obj) : List String := o.props.map Prod.fst

/-- Own-property lookup; `none` when `k` is not an own property. -/
def getOwn (o : Obj) (k : String) : Option JsVal := Props.getOwn o.props k

/-- Definition of an own data property, as done for each member of an object
literal: an existing key keeps its place and takes the new value, a new key
goes last. -/
def set (o : Obj) (k : String) (v : JsVal) : Obj :=
  if h : k ∈ o.props.map Prod.fst then
    ⟨o.props.map (fun p => (p.1, if p.1 = k then v else p.2)), by
      rw [List.map_map]
      exact o.nodup⟩
  else
    ⟨o.props ++ [(k, v)], by
      rw [List.map_append]
      exact List.Nodup.append o.nodup (List.nodup_singleton k) (by simpa using h)⟩

/-- Definition of a run of properties, left to right. -/
def defineAll (o : Obj) (ps : Props) : Obj :=
  ps.foldl (fun acc p => acc.set p.1 p.2) o

/-- An object literal without spread members: `{ k1: v1, k2: v2, ... }`. -/
def literal (ps : Props) : Obj := empty.defineAll ps

/-- A spread member `...src` inside an object literal being built: every own
property of `src` is defined on the target, in order. -/
def spread (target src : Obj) : Obj := target.defineAll src.props

/-- The property names every plain object inherits from `Object.prototype`. -/
def objectPrototypeKeys : List String :=
  ["constructor", "__defineGetter__", "__defineSetter__", "hasOwnProperty",
   "__lookupGetter__", "__lookupSetter__", "isPrototypeOf", "propertyIsEnumerable",
   "toString", "valueOf", "__proto__", "toLocaleString"]

/-- Reading `k` on `Object.prototype`: the built-in function (for `__proto__`,
the prototype object) when `k` is one of its names, `undefined` otherwise. -/
def objectPrototypeGet (k : String) : JsVal :=
  if k ∈ objectPrototypeKeys then .ref ("Object.prototype." ++ k) else .undefined

/-- The property read `o[k]`: the own property when there is one, otherwise
what the prototype gives. -/
def get (o : Obj) (k : String) : JsVal :=
  match o.getOwn k with
  | some v => v
  | none => objectPrototypeGet k

end Obj

/-! ## The screen state and what handlers do -/

/-- The argument of a `useState` setter: a next value, or a function of the
previous state. -/
inductive SetStateAction where
  | value (next : Obj)
  | updater (f : Obj → Obj)

/-- The state a setter call leaves, from the state before it. -/
def SetStateAction.apply : SetStateAction → Obj → Obj
  | .value next, _ => next
  | .updater f, prev => f prev

mutual
/-- What a handler of the screen can do: call `setSettings`, or call
`Alert.alert(title, message, buttons)`. -/
inductive Effect where
  | setSettings (a : SetStateAction)
  | alert (title message : String) (buttons : List AlertButton)
/-- One option of an alert: `{ text, style, onPress }`, the last two optional. -/
inductive AlertButton where
  | mk (text : String) (style : Option String) (onPress : Option (List Effect))
end

namespace AlertButton

/-- The `text` of an option. -/
def text : AlertButton → String
  | mk t _ _ => t

/-- What choosing an option runs: its `onPress`, nothing when it has none. -/
def press : AlertButton → List Effect
  | mk _ _ (some es) => es
  | mk _ _ none => []

end AlertButton

namespace Effect

/-- The settings after one effect. An alert only shows a dialog. -/
def run : Effect → Obj → Obj
  | setSettings a, s => a.apply s
  | alert _ _ _, s => s

/-- The title of the dialog an effect opens, when it opens one. -/
def alertTitle : Effect → Option String
  | setSettings _ => none
  | alert t _ _ => some t

/-- The options of the dialog an effect opens. -/
def alertButtons : Effect → List AlertButton
  | setSettings _ => []
  | alert _ _ bs => bs

end Effect

/-- The settings after a handler has run, from the settings before it. -/
def runEffects (es : List Effect) (s : Obj) : Obj :=
  es.foldl (fun acc e => e.run acc) s

/-- The titles of the dialogs a handler opens, in order. -/
def alertTitles (es : List Effect) : List String :=
  es.filterMap Effect.alertTitle

/-- What runs when the user chooses the option labelled `label` in the dialogs
a handler has opened. -/
def chooseOption (es : List Effect) (label : String) : List Effect :=
  match (es.flatMap Effect.alertButtons).find? (fun b => b.text == label) with
  | some b => b.press
  | none => []

/-! ## SettingsScreen -/

/-- The initial state given to `useState` (lines 17-21). -/
def initialSettings : Obj :=
  Obj.literal
    [("notifications", .bool true), ("darkMode", .bool false), ("locationServices", .bool false)]

/-- The palette `colors` (lines 24-40), from `baseColors` and the settings. -/
def colors (baseColors settings : Obj) : Obj :=
  if (settings.get "darkMode").truthy then
    (Obj.empty.spread baseColors).defineAll
      [("background", .str "#121212"), ("text", .str "#ffffff"), ("card", .str "#1e1e1e"),
       ("border", .str "#333333"), ("sectionTitle", .str "#bbbbbb")]
  else
    (Obj.empty.spread baseColors).defineAll
      [("background", .str "#f5f5f5"), ("text", .str "#000000"), ("card", .str "#ffffff"),
       ("border", .str "#e0e0e0"), ("sectionTitle", .str "#666666")]

/-- The keys the two literals of `colors` write after the spread. -/
def paletteKeys : List String := ["background", "text", "card", "border", "sectionTitle"]

/-- The handler `toggleSetting` (lines 42-44):
`setSettings((prev) => ({ ...prev, [key]: !prev[key] }))`. -/
def toggleSetting (key : String) : List Effect :=
  [.setSettings (.updater fun prev => (Obj.empty.spread prev).set key (prev.get key).not)]

/-- The `onPress` of the 'Primary Action' button (lines 159-161). -/
def primaryOnPress (isIOS : JsVal) : List Effect :=
  [.alert "Success" ((if isIOS.truthy then "iOS" else "Android") ++ " primary button") []]

/-- The `onPress` of the 'Secondary Action' button (line 168). -/
def secondaryOnPress : List Effect :=
  [.alert "Info" "Secondary button pressed" []]

/-- The `onPress` of the 'Reset' option of the 'Confirm' dialog (lines 180-187). -/
def resetConfirmOnPress : List Effect :=
  [.setSettings (.value (Obj.literal
      [("notifications", .bool true), ("darkMode", .bool false),
       ("locationServices", .bool false)])),
   .alert "Done" "Settings reset" []]

/-- The `onPress` of the 'Reset Settings' button (lines 175-190). -/
def resetOnPress : List Effect :=
  [.alert "Confirm" "Reset all settings?"
    [.mk "Cancel" (some "cancel") none,
     .mk "Reset" none (some resetConfirmOnPress)]]

/-- The props of `StatusBar` (lines 72-75). -/
structure StatusBarProps where
  barStyle : String
  backgroundColor : JsVal

/-- One row made by `renderSettingRow` (lines 46-61). -/
structure SettingRow where
  title : String
  description : String
  borderBottomColor : JsVal
  textColor : JsVal
  value : JsVal
  onValueChange : List Effect
  trackColorFalse : JsVal
  trackColorTrue : JsVal
  thumbColor : JsVal

/-- One row made by `renderInfoRow` (lines 63-68). -/
structure InfoRow where
  label : String
  value : String
  borderBottomColor : JsVal
  textColor : JsVal
  deriving DecidableEq, Repr

/-- The props the screen gives a `PlatformButton` (lines 155-191). -/
structure ButtonProps where
  title : String
  variant : String
  darkMode : JsVal
  onPress : List Effect

/-- What the component returns (lines 70-195): the texts, and the props and
style entries computed from `settings`, `colors` and `isIOS`. The static style
sheet and the `Platform.select` entries are left out. -/
structure Rendered where
  containerBackground : JsVal
  statusBar : StatusBarProps
  headerBackground : JsVal
  headerBorderBottomColor : JsVal
  headerTitleColor : JsVal
  headerTitle : String
  headerSubtitleColor : JsVal
  headerSubtitle : String
  scrollViewBackground : JsVal
  sectionTitleColor : JsVal
  sectionBackground : JsVal
  settingRows : List SettingRow
  infoRows : List InfoRow
  buttons : List ButtonProps

/-- The function `renderSettingRow` (lines 46-61). -/
def renderSettingRow (isIOS : JsVal) (colors : Obj) (title description : String)
    (value : JsVal) (settingKey : String) : SettingRow where
  title := title
  description := description
  borderBottomColor := colors.get "border"
  textColor := colors.get "text"
  value := value
  onValueChange := toggleSetting settingKey
  trackColorFalse := .str "#767577"
  trackColorTrue := colors.get "primary"
  thumbColor :=
    if isIOS.truthy then .str "#ffffff"
    else if value.truthy then colors.get "primary" else .str "#f4f3f4"

/-- The function `renderInfoRow` (lines 63-68). -/
def renderInfoRow (colors : Obj) (label value : String) : InfoRow where
  label := label
  value := value
  borderBottomColor := colors.get "border"
  textColor := colors.get "text"

/-- The component body (lines 16-196) for given imports `isIOS` and
`baseColors = getCurrentPlatformColors()` and a given state `settings`. -/
def render (isIOS : JsVal) (baseColors settings : Obj) : Rendered :=
  let colors := colors baseColors settings
  { containerBackground := colors.get "background"
    statusBar :=
      { barStyle := if (settings.get "darkMode").truthy then "light-content" else "dark-content"
        backgroundColor := if isIOS.truthy then .undefined else colors.get "primary" }
    headerBackground := if isIOS.truthy then colors.get "background" else colors.get "primary"
    headerBorderBottomColor := if isIOS.truthy then colors.get "border" else .str "transparent"
    headerTitleColor := if isIOS.truthy then colors.get "text" else .str "#ffffff"
    headerTitle := "Settings"
    headerSubtitleColor := if isIOS.truthy then colors.get "text" else .str "#ffffff"
    headerSubtitle := if isIOS.truthy then "iOS Style" else "Android Style"
    scrollViewBackground := colors.get "background"
    sectionTitleColor := colors.get "sectionTitle"
    sectionBackground := colors.get "card"
    settingRows :=
      [renderSettingRow isIOS colors "Push Notifications" "Receive app notifications"
         (settings.get "notifications") "notifications",
       renderSettingRow isIOS colors "Dark Mode" "Use dark theme"
         (settings.get "darkMode") "darkMode",
       renderSettingRow isIOS colors "Location Services" "Allow location access"
         (settings.get "locationServices") "locationServices"]
    infoRows :=
      [renderInfoRow colors "Platform:" (if isIOS.truthy then "iOS" else "Android"),
       renderInfoRow colors "Button Style:"
         (if isIOS.truthy then "Rounded (12pt)" else "Sharp (4pt)"),
       renderInfoRow colors "Typography:" (if isIOS.truthy then "San Francisco" else "Roboto"),
       renderInfoRow colors "Depth Effect:" (if isIOS.truthy then "Shadow" else "Elevation")]
    buttons :=
      [{ title := "Primary Action", variant := "primary", darkMode := settings.get "darkMode",
         onPress := primaryOnPress isIOS },
       { title := "Secondary Action", variant := "secondary",
         darkMode := settings.get "darkMode", onPress := secondaryOnPress },
       { title := "Reset Settings", variant := "primary", darkMode := settings.get "darkMode",
         onPress := resetOnPress }] }

/-! ## Settings records and user actions -/

/-- The keys the three switches pass to `toggleSetting` (lines 117, 119, 124). -/
def settingKeys : List String := ["notifications", "darkMode", "locationServices"]

/-- A settings record: an object whose own keys are `notifications`, `darkMode`
and `locationServices`, each once and no other, and whose values are booleans. -/
def IsSettings (s : Obj) : Prop :=
  s.keys.Perm settingKeys ∧ ∀ k ∈ settingKeys, ∃ b, s.getOwn k = some (.bool b)

/-- What the user can do on the screen: flip one of the three switches, press
one of the three buttons, choose an option of the 'Confirm' dialog. -/
inductive Action where
  | switchNotifications
  | switchDarkMode
  | switchLocationServices
  | pressPrimary
  | pressSecondary
  | pressReset
  | chooseCancel
  | chooseReset
  deriving DecidableEq, Repr

/-- The handler the screen has bound to an action. -/
def Action.handler (isIOS : JsVal) : Action → List Effect
  | .switchNotifications => toggleSetting "notifications"
  | .switchDarkMode => toggleSetting "darkMode"
  | .switchLocationServices => toggleSetting "locationServices"
  | .pressPrimary => primaryOnPress isIOS
  | .pressSecondary => secondaryOnPress
  | .pressReset => resetOnPress
  | .chooseCancel => chooseOption resetOnPress "Cancel"
  | .chooseReset => chooseOption resetOnPress "Reset"

/-- The settings after one action. -/
def step (isIOS : JsVal) (s : Obj) (a : Action) : Obj :=
  runEffects (a.handler isIOS) s

/-- The settings after a sequence of actions from the initial state. -/
def runActions (isIOS : JsVal) (as : List Action) : Obj :=
  as.foldl (step isIOS) initialSettings

/-! ## Lemmas on plain objects -/

namespace Props

theorem getOwn_none_iff_not_mem (ps : Props) (k : String) :
    getOwn ps k = none ↔ k ∉ ps.map Prod.fst := by
  induction ps with
  | nil => simp [getOwn]
  | cons p rest ih =>
    obtain ⟨k', v'⟩ := p
    by_cases h : k' = k
    · simp [getOwn, h]
    · have h' : ¬ k = k' := fun e => h e.symm
      simp [getOwn, h, h', ih]

theorem getOwn_append (ps qs : Props) (k : String) :
    getOwn (ps ++ qs) k = (getOwn ps k).orElse (fun _ => getOwn qs k) := by
  induction ps with
  | nil => simp [getOwn]
  | cons p rest ih =>
    obtain ⟨k', v'⟩ := p
    by_cases h : k' = k
    · simp [getOwn, h]
    · simp [getOwn, h, ih]

theorem getOwn_replace_same (ps : Props) (k : String) (v : JsVal)
    (h : k ∈ ps.map Prod.fst) :
    getOwn (ps.map fun p => (p.1, if p.1 = k then v else p.2)) k = some v := by
  induction ps with
  | nil => simp at h
  | cons p rest ih =>
    obtain ⟨k', v'⟩ := p
    by_cases hk : k' = k
    · simp [getOwn, hk]
    · have hk' : ¬ k = k' := fun e => hk e.symm
      have hr : k ∈ rest.map Prod.fst := by simpa [hk'] using h
      simp [getOwn, hk, ih hr]

theorem getOwn_replace_other (ps : Props) {k j : String} (v : JsVal) (hjk : j ≠ k) :
    getOwn (ps.map fun p => (p.1, if p.1 = k then v else p.2)) j = getOwn ps j := by
  have hkj : ¬ k = j := fun e => hjk e.symm
  induction ps with
  | nil => simp [getOwn]
  | cons p rest ih =>
    obtain ⟨k', v'⟩ := p
    by_cases hk : k' = k
    · subst hk
      simp [getOwn, hkj, ih]
    · simp [getOwn, hk, ih]

end Props

namespace Obj

theorem eq_of_props_eq {a b : Obj} (h : a.props = b.props) : a = b := by
  cases a; cases b; simp_all

theorem getOwn_eq_none_iff (o : Obj) (k : String) : o.getOwn k = none ↔ k ∉ o.keys :=
  Props.getOwn_none_iff_not_mem o.props k

theorem set_props_of_not_mem (o : Obj) {k : String} (v : JsVal) (h : k ∉ o.keys) :
    (o.set k v).props = o.props ++ [(k, v)] := by
  unfold keys at h
  simp [set, h]

theorem set_props_of_mem (o : Obj) {k : String} (v : JsVal) (h : k ∈ o.keys) :
    (o.set k v).props = o.props.map fun p => (p.1, if p.1 = k then v else p.2) := by
  unfold keys at h
  simp only [set, h, dite_true]

theorem getOwn_set_same (o : Obj) (k : String) (v : JsVal) :
    (o.set k v).getOwn k = some v := by
  by_cases h : k ∈ o.keys
  · rw [getOwn, set_props_of_mem o v h]
    exact Props.getOwn_replace_same o.props k v h
  · rw [getOwn, set_props_of_not_mem o v h, Props.getOwn_append]
    have : Props.getOwn o.props k = none := (Props.getOwn_none_iff_not_mem _ _).2 h
    simp [this, Props.getOwn]

theorem getOwn_set_other (o : Obj) {k j : String} (v : JsVal) (hjk : j ≠ k) :
    (o.set k v).getOwn j = o.getOwn j := by
  have hkj : ¬ k = j := fun e => hjk e.symm
  by_cases h : k ∈ o.keys
  · rw [getOwn, set_props_of_mem o v h]
    exact Props.getOwn_replace_other o.props v hjk
  · rw [getOwn, set_props_of_not_mem o v h, Props.getOwn_append]
    cases hj : Props.getOwn o.props j <;> simp [getOwn, hj, Props.getOwn, hkj]

theorem keys_set_of_mem (o : Obj) {k : String} (v : JsVal) (h : k ∈ o.keys) :
    (o.set k v).keys = o.keys := by
  rw [keys, set_props_of_mem o v h, keys, List.map_map]
  rfl

theorem keys_set_of_not_mem (o : Obj) {k : String} (v : JsVal) (h : k ∉ o.keys) :
    (o.set k v).keys = o.keys ++ [k] := by
  rw [keys, set_props_of_not_mem o v h]
  simp [keys]

theorem get_set_same (o : Obj) (k : String) (v : JsVal) : (o.set k v).get k = v := by
  simp [get, getOwn_set_same]

theorem get_set_other (o : Obj) {k j : String} (v : JsVal) (hjk : j ≠ k) :
    (o.set k v).get j = o.get j := by
  simp [get, getOwn_set_other o v hjk]

/-- Defining, on `acc`, properties whose keys are new and pairwise distinct
appends them in order. -/
theorem defineAll_props_of_fresh (ps : Props) :
    ∀ acc : Obj, (acc.keys ++ ps.map Prod.fst).Nodup →
      (acc.defineAll ps).props = acc.props ++ ps := by
  induction ps with
  | nil => intro acc _; simp [defineAll]
  | cons p rest ih =>
    intro acc h
    obtain ⟨k, v⟩ := p
    have hk : k ∉ acc.keys := by
      intro hmem
      have hd := (List.nodup_append.1 h).2.2
      exact hd hmem (List.mem_cons_self k _)
    have hstep : (acc.set k v).props = acc.props ++ [(k, v)] := set_props_of_not_mem acc v hk
    have hnd : ((acc.set k v).keys ++ rest.map Prod.fst).Nodup := by
      rw [keys_set_of_not_mem acc v hk]
      simpa using h
    have := ih (acc.set k v) hnd
    simp only [defineAll, List.foldl_cons] at this ⊢
    rw [this, hstep]
    simp

/-- The literal `{ ...o }` is a copy of `o`. -/
theorem spread_empty (o : Obj) : empty.spread o = o := by
  apply eq_of_props_eq
  rw [spread, defineAll_props_of_fresh o.props empty (by simpa [empty, keys] using o.nodup)]
  simp [empty]

/-- Two objects with the same keys in the same order and the same own values
are the same object. -/
theorem eq_of_keys_getOwn {a b : Obj} (hk : a.keys = b.keys)
    (hv : ∀ k, a.getOwn k = b.getOwn k) : a = b := by
  apply eq_of_props_eq
  obtain ⟨ps, hps⟩ := a
  obtain ⟨qs, hqs⟩ := b
  simp only [keys, getOwn] at hk hv ⊢
  induction ps generalizing qs with
  | nil =>
    cases qs with
    | nil => rfl
    | cons q qs => simp at hk
  | cons p ps ih =>
    cases qs with
    | nil => simp at hk
    | cons q qs =>
      obtain ⟨k, v⟩ := p
      obtain ⟨k', w⟩ := q
      simp only [List.map_cons, List.cons.injEq] at hk
      obtain ⟨hkk, hrest⟩ := hk
      subst hkk
      have hvw : v = w := by
        have := hv k
        simpa [Props.getOwn] using this
      subst hvw
      have hps' := (List.nodup_cons.1 hps)
      have hqs' := (List.nodup_cons.1 hqs)
      have htail : ∀ j, Props.getOwn ps j = Props.getOwn qs j := by
        intro j
        by_cases hj : k = j
        · subst hj
          rw [(Props.getOwn_none_iff_not_mem ps k).2 hps'.1,
            (Props.getOwn_none_iff_not_mem qs k).2 hqs'.1]
        · have := hv j
          simpa [Props.getOwn, hj] using this
      rw [ih hps'.2 qs hqs'.2 hrest htail]

end Obj

/-! ## Lemmas on the screen -/

theorem runEffects_toggleSetting (k : String) (s : Obj) :
    runEffects (toggleSetting k) s = s.set k (s.get k).not := by
  simp [runEffects, toggleSetting, Effect.run, SetStateAction.apply, Obj.spread_empty]

theorem chooseOption_reset : chooseOption resetOnPress "Reset" = resetConfirmOnPress := by
  simp [chooseOption, resetOnPress, Effect.alertButtons, AlertButton.text, AlertButton.press]

theorem chooseOption_cancel : chooseOption resetOnPress "Cancel" = [] := by
  simp [chooseOption, resetOnPress, Effect.alertButtons, AlertButton.text, AlertButton.press]

theorem runEffects_resetConfirm (s : Obj) : runEffects resetConfirmOnPress s = initialSettings := by
  simp [runEffects, resetConfirmOnPress, Effect.run, SetStateAction.apply, initialSettings]

theorem isSettings_initialSettings : IsSettings initialSettings :=
  ⟨by decide, by decide⟩

theorem IsSettings.mem_keys {s : Obj} (hs : IsSettings s) {k : String} (hk : k ∈ settingKeys) :
    k ∈ s.keys :=
  (hs.1.mem_iff).2 hk

theorem IsSettings.get_eq {s : Obj} (hs : IsSettings s) {k : String} (hk : k ∈ settingKeys) :
    ∃ b, s.getOwn k = some (.bool b) ∧ s.get k = .bool b := by
  obtain ⟨b, hb⟩ := hs.2 k hk
  exact ⟨b, hb, by simp [Obj.get, hb]⟩

theorem IsSettings.toggle {s : Obj} (hs : IsSettings s) {k : String} (hk : k ∈ settingKeys) :
    IsSettings (runEffects (toggleSetting k) s) := by
  rw [runEffects_toggleSetting]
  refine ⟨?_, ?_⟩
  · rw [Obj.keys_set_of_mem s _ (hs.mem_keys hk)]
    exact hs.1
  · intro j hj
    by_cases hjk : j = k
    · subst hjk
      rw [Obj.getOwn_set_same]
      exact ⟨_, rfl⟩
    · rw [Obj.getOwn_set_other s _ hjk]
      exact hs.2 j hj

theorem colors_getOwn_of_not_mem (baseColors settings : Obj) {k : String}
    (hk : k ∉ paletteKeys) : (colors baseColors settings).getOwn k = baseColors.getOwn k := by
  simp only [paletteKeys, List.mem_cons, List.mem_singleton, List.not_mem_nil, or_false,
    not_or] at hk
  obtain ⟨h1, h2, h3, h4, h5⟩ := hk
  unfold colors
  split <;>
    simp only [Obj.spread_empty, Obj.defineAll, List.foldl_cons, List.foldl_nil,
      Obj.getOwn_set_other _ _ h1, Obj.getOwn_set_other _ _ h2, Obj.getOwn_set_other _ _ h3,
      Obj.getOwn_set_other _ _ h4, Obj.getOwn_set_other _ _ h5]

theorem colors_get_of_not_mem (baseColors settings : Obj) {k : String}
    (hk : k ∉ paletteKeys) : (colors baseColors settings).get k = baseColors.get k := by
  simp [Obj.get, colors_getOwn_of_not_mem baseColors settings hk]

theorem isSettings_step {s : Obj} (hs : IsSettings s) (isIOS : JsVal) (a : Action) :
    IsSettings (step isIOS s a) := by
  cases a
  · exact hs.toggle (by decide)
  · exact hs.toggle (by decide)
  · exact hs.toggle (by decide)
  · exact hs
  · exact hs
  · exact hs
  · show IsSettings (runEffects (chooseOption resetOnPress "Cancel") s)
    rw [chooseOption_cancel]
    exact hs
  · show IsSettings (runEffects (chooseOption resetOnPress "Reset") s)
    rw [chooseOption_reset, runEffects_resetConfirm]
    exact isSettings_initialSettings

theorem isSettings_foldl_step (isIOS : JsVal) (as : List Action) :
    ∀ s : Obj, IsSettings s → IsSettings (as.foldl (step isIOS) s) := by
  induction as with
  | nil => intro s hs; exact hs
  | cons a rest ih => intro s hs; exact ih _ (isSettings_step hs isIOS a)

theorem IsSettings.truthy_darkMode {s : Obj} (hs : IsSettings s) :
    (s.get "darkMode").truthy = true ↔ s.get "darkMode" = .bool true := by
  obtain ⟨b, _, hg⟩ := hs.get_eq (k := "darkMode") (by decide)
  rw [hg]
  cases b <;> simp [JsVal.truthy]

/-! ## The claims -/

/-- C1: for every settings record `s` and every key `k` among 'notifications',
'darkMode' and 'locationServices', the state update made by `toggleSetting(k)`
yields a record whose field `k` is the boolean negation of `s[k]` and whose
other two fields are those of `s`; the record keeps its keys. -/
theorem toggleSetting_negates_key_keeps_others (s : Obj) (hs : IsSettings s) (k : String)
    (hk : k ∈ settingKeys) :
    (∃ b, s.getOwn k = some (.bool b) ∧
      (runEffects (toggleSetting k) s).getOwn k = some (.bool (!b))) ∧
    (∀ j ∈ settingKeys, j ≠ k → (runEffects (toggleSetting k) s).getOwn j = s.getOwn j) ∧
    (runEffects (toggleSetting k) s).keys = s.keys := by
  rw [runEffects_toggleSetting]
  obtain ⟨b, hb, hg⟩ := hs.get_eq hk
  refine ⟨⟨b, hb, ?_⟩, ?_, Obj.keys_set_of_mem s _ (hs.mem_keys hk)⟩
  · rw [Obj.getOwn_set_same, hg]
    rfl
  · intro j _ hjk
    exact Obj.getOwn_set_other s _ hjk

/-- Witness of C1 at the initial settings and the key 'darkMode'. -/
theorem toggleSetting_negates_key_keeps_others_witness :
    IsSettings initialSettings ∧ "darkMode" ∈ settingKeys ∧
    ((∃ b, initialSettings.getOwn "darkMode" = some (.bool b) ∧
      (runEffects (toggleSetting "darkMode") initialSettings).getOwn "darkMode"
        = some (.bool (!b))) ∧
    (∀ j ∈ settingKeys, j ≠ "darkMode" →
      (runEffects (toggleSetting "darkMode") initialSettings).getOwn j
        = initialSettings.getOwn j) ∧
    (runEffects (toggleSetting "darkMode") initialSettings).keys = initialSettings.keys) :=
  ⟨isSettings_initialSettings, by decide,
    toggleSetting_negates_key_keeps_others initialSettings isSettings_initialSettings
      "darkMode" (by decide)⟩

/-- C2: for every settings object `s`, choosing 'Reset' in the 'Confirm' dialog
sets the settings to exactly `{notifications: true, darkMode: false,
locationServices: false}`, which is the initial state given to `useState`; the
result does not depend on `s`. -/
theorem reset_confirm_restores_initial (s : Obj) :
    runEffects (chooseOption resetOnPress "Reset") s = initialSettings ∧
    initialSettings.props =
      [("notifications", .bool true), ("darkMode", .bool false),
       ("locationServices", .bool false)] := by
  rw [chooseOption_reset, runEffects_resetConfirm]
  exact ⟨rfl, by decide⟩

/-- C3: the palette `colors` depends on the settings through `darkMode` alone:
for a fixed `baseColors`, two settings objects with the same `darkMode` give the
same palette, whatever their other fields. -/
theorem colors_depends_on_darkMode_only (baseColors s1 s2 : Obj)
    (h : s1.get "darkMode" = s2.get "darkMode") :
    colors baseColors s1 = colors baseColors s2 := by
  simp [colors, h]

/-- Witness of C3: two settings records that differ in `notifications` and
`locationServices` only. -/
theorem colors_depends_on_darkMode_only_witness :
    initialSettings.get "darkMode"
      = (Obj.literal [("notifications", .bool false), ("darkMode", .bool false),
          ("locationServices", .bool true)]).get "darkMode" ∧
    colors (Obj.literal [("primary", .str "#007AFF")]) initialSettings
      = colors (Obj.literal [("primary", .str "#007AFF")])
          (Obj.literal [("notifications", .bool false), ("darkMode", .bool false),
            ("locationServices", .bool true)]) :=
  ⟨by decide, colors_depends_on_darkMode_only _ _ _ (by decide)⟩

/-- C4: for every `baseColors`, when `darkMode` is the boolean `d` the palette
has background, text, card, border and sectionTitle equal to '#121212',
'#ffffff', '#1e1e1e', '#333333', '#bbbbbb' for `d = true` and to '#f5f5f5',
'#000000', '#ffffff', '#e0e0e0', '#666666' for `d = false`, also when
`baseColors` defines these keys; every other key `k` has in the palette what it
has in `baseColors`. -/
theorem colors_palette_values (baseColors settings : Obj) (d : Bool)
    (hd : settings.get "darkMode" = .bool d) (k : String) (hk : k ∉ paletteKeys) :
    (colors baseColors settings).getOwn "background"
      = some (.str (if d then "#121212" else "#f5f5f5")) ∧
    (colors baseColors settings).getOwn "text"
      = some (.str (if d then "#ffffff" else "#000000")) ∧
    (colors baseColors settings).getOwn "card"
      = some (.str (if d then "#1e1e1e" else "#ffffff")) ∧
    (colors baseColors settings).getOwn "border"
      = some (.str (if d then "#333333" else "#e0e0e0")) ∧
    (colors baseColors settings).getOwn "sectionTitle"
      = some (.str (if d then "#bbbbbb" else "#666666")) ∧
    (colors baseColors settings).getOwn k = baseColors.getOwn k := by
  refine ⟨?_, ?_, ?_, ?_, ?_, colors_getOwn_of_not_mem baseColors settings hk⟩ <;>
    cases d <;>
    simp [colors, hd, JsVal.truthy, Obj.spread_empty, Obj.defineAll, Obj.getOwn_set_same,
      Obj.getOwn_set_other]

/-- Witness of C4 in dark mode, with a `baseColors` that defines `text` itself
and has a `primary` colour. -/
theorem colors_palette_values_witness :
    (runEffects (toggleSetting "darkMode") initialSettings).get "darkMode" = .bool true ∧
    "primary" ∉ paletteKeys ∧
    (colors (Obj.literal [("primary", .str "#007AFF"), ("text", .str "#111111")])
      (runEffects (toggleSetting "darkMode") initialSettings)).getOwn "text"
      = some (.str "#ffffff") ∧
    (colors (Obj.literal [("primary", .str "#007AFF"), ("text", .str "#111111")])
      (runEffects (toggleSetting "darkMode") initialSettings)).getOwn "primary"
      = some (.str "#007AFF") := by
  have h := colors_palette_values
    (Obj.literal [("primary", .str "#007AFF"), ("text", .str "#111111")])
    (runEffects (toggleSetting "darkMode") initialSettings) true (by decide)
    "primary" (by decide)
  refine ⟨by decide, by decide, ?_, ?_⟩
  · rw [h.2.1]
    rfl
  · rw [h.2.2.2.2.2]
    decide

/-- C5: every state reached from the initial state by a finite sequence of
actions of the screen (the three switches, the three buttons, the two options
of the 'Confirm' dialog) has exactly the keys notifications, darkMode and
locationServices, each holding a boolean. -/
theorem reachable_settings_shape (isIOS : JsVal) (as : List Action) :
    (runActions isIOS as).keys.Perm ["notifications", "darkMode", "locationServices"] ∧
    ∀ k ∈ ["notifications", "darkMode", "locationServices"],
      ∃ b, (runActions isIOS as).getOwn k = some (.bool b) :=
  isSettings_foldl_step isIOS as initialSettings isSettings_initialSettings

/-- C6: for every settings object `s`, pressing 'Primary Action', pressing
'Secondary Action', pressing 'Reset Settings' (which opens the 'Confirm' dialog
and nothing else) and choosing 'Cancel' in that dialog each leave the settings
equal to `s`; choosing 'Reset' does change some settings record. -/
theorem buttons_leave_settings (isIOS : JsVal) (s : Obj) :
    runEffects (primaryOnPress isIOS) s = s ∧
    runEffects secondaryOnPress s = s ∧
    runEffects resetOnPress s = s ∧
    alertTitles resetOnPress = ["Confirm"] ∧
    runEffects (chooseOption resetOnPress "Cancel") s = s ∧
    ∃ t, IsSettings t ∧ runEffects (chooseOption resetOnPress "Reset") t ≠ t := by
  refine ⟨rfl, rfl, rfl, rfl, ?_, ?_⟩
  · rw [chooseOption_cancel]
    rfl
  · refine ⟨runEffects (toggleSetting "darkMode") initialSettings,
      isSettings_initialSettings.toggle (by decide), ?_⟩
    rw [chooseOption_reset, runEffects_resetConfirm]
    decide

/-- C7: for every `baseColors` and every settings object, when `isIOS` is true
the header subtitle is 'iOS Style' and the four info rows show 'iOS',
'Rounded (12pt)', 'San Francisco' and 'Shadow'; when `isIOS` is false the
subtitle is 'Android Style' and the rows show 'Android', 'Sharp (4pt)',
'Roboto' and 'Elevation'. -/
theorem platform_info_by_isIOS (baseColors settings : Obj) :
    (render (.bool true) baseColors settings).headerSubtitle = "iOS Style" ∧
    (render (.bool true) baseColors settings).infoRows.map InfoRow.value
      = ["iOS", "Rounded (12pt)", "San Francisco", "Shadow"] ∧
    (render (.bool false) baseColors settings).headerSubtitle = "Android Style" ∧
    (render (.bool false) baseColors settings).infoRows.map InfoRow.value
      = ["Android", "Sharp (4pt)", "Roboto", "Elevation"] := by
  simp [render, renderInfoRow, JsVal.truthy]

/-- C8: for every settings record and every `baseColors`, the status bar's
barStyle is 'light-content' if and only if `settings.darkMode` is true and is
'dark-content' otherwise; its backgroundColor is undefined when `isIOS` is true
and is the palette's primary colour when `isIOS` is false, and that colour is
the one `baseColors` has. -/
theorem statusBar_props (baseColors settings : Obj) (hs : IsSettings settings) (isIOS : JsVal) :
    ((render isIOS baseColors settings).statusBar.barStyle = "light-content"
      ↔ settings.get "darkMode" = .bool true) ∧
    (render isIOS baseColors settings).statusBar.barStyle
      = (if settings.get "darkMode" = .bool true then "light-content" else "dark-content") ∧
    (render (.bool true) baseColors settings).statusBar.backgroundColor = .undefined ∧
    (render (.bool false) baseColors settings).statusBar.backgroundColor
      = (colors baseColors settings).get "primary" ∧
    (colors baseColors settings).get "primary" = baseColors.get "primary" := by
  have ht := hs.truthy_darkMode
  refine ⟨?_, ?_, ?_, ?_, colors_get_of_not_mem baseColors settings (by decide)⟩
  · by_cases h : settings.get "darkMode" = .bool true
    · simp [render, h, JsVal.truthy]
    · have h' : ¬ (settings.get "darkMode").truthy = true := fun e => h (ht.1 e)
      simp [render, h, h']
  · by_cases h : settings.get "darkMode" = .bool true
    · simp [render, h, JsVal.truthy]
    · have h' : ¬ (settings.get "darkMode").truthy = true := fun e => h (ht.1 e)
      simp [render, h, h']
  · simp [render, JsVal.truthy]
  · simp [render, JsVal.truthy]

/-- Witness of C8 at the initial settings, on Android, with a palette that has
a primary colour. -/
theorem statusBar_props_witness :
    IsSettings initialSettings ∧
    (render (.bool false) (Obj.literal [("primary", .str "#6200EE")])
      initialSettings).statusBar.barStyle = "dark-content" ∧
    (render (.bool false) (Obj.literal [("primary", .str "#6200EE")])
      initialSettings).statusBar.backgroundColor = .str "#6200EE" := by
  have h := statusBar_props (Obj.literal [("primary", .str "#6200EE")]) initialSettings
    isSettings_initialSettings (.bool false)
  refine ⟨isSettings_initialSettings, ?_, ?_⟩
  · rw [h.2.1]
    decide
  · rw [h.2.2.2.1, h.2.2.2.2]
    decide

/-- C9: for every settings record `s` and every key `k` among 'notifications',
'darkMode' and 'locationServices', applying the `toggleSetting(k)` update twice
in succession yields a record equal to `s`. -/
theorem toggleSetting_twice (s : Obj) (hs : IsSettings s) (k : String)
    (hk : k ∈ settingKeys) :
    runEffects (toggleSetting k) (runEffects (toggleSetting k) s) = s := by
  obtain ⟨b, hb, hg⟩ := hs.get_eq hk
  have hmem := hs.mem_keys hk
  rw [runEffects_toggleSetting, runEffects_toggleSetting]
  have hmem' : k ∈ (s.set k (s.get k).not).keys := by
    rw [Obj.keys_set_of_mem s _ hmem]
    exact hmem
  apply Obj.eq_of_keys_getOwn
  · rw [Obj.keys_set_of_mem _ _ hmem', Obj.keys_set_of_mem s _ hmem]
  · intro j
    by_cases hjk : j = k
    · subst hjk
      rw [Obj.getOwn_set_same, Obj.get_set_same, hg, hb]
      cases b <;> rfl
    · rw [Obj.getOwn_set_other _ _ hjk, Obj.getOwn_set_other _ _ hjk]

/-- Witness of C9 at the initial settings and the key 'notifications'. -/
theorem toggleSetting_twice_witness :
    IsSettings initialSettings ∧ "notifications" ∈ settingKeys ∧
    runEffects (toggleSetting "notifications")
      (runEffects (toggleSetting "notifications") initialSettings) = initialSettings :=
  ⟨isSettings_initialSettings, by decide,
    toggleSetting_twice initialSettings isSettings_initialSettings "notifications" (by decide)⟩

/-- C10, as stated, fails: 'toString' is not a field of the initial settings,
yet `toggleSetting('toString')` gives the new field the value `false`, because
`prev['toString']` reads the function inherited from `Object.prototype`. -/
theorem toggleSetting_inherited_key_false :
    IsSettings initialSettings ∧
    initialSettings.getOwn "toString" = none ∧
    (runEffects (toggleSetting "toString") initialSettings).getOwn "toString"
      = some (.bool false) ∧
    (runEffects (toggleSetting "toString") initialSettings).getOwn "toString"
      ≠ some (.bool true) :=
  ⟨isSettings_initialSettings, by decide, by decide, by decide⟩

/-- C10, amended: for every settings record `s` and every key `k` that is not a
field of `s`, the `toggleSetting(k)` update keeps the three fields of `s`
unchanged and gains a fourth field `k` whose value is the negation of `s[k]`
as read through the prototype: `true` when `k` is not a property name of
`Object.prototype`, `false` when it is; the result is no longer a three-field
settings record. -/
theorem toggleSetting_unknown_key (s : Obj) (hs : IsSettings s) (k : String)
    (hk : s.getOwn k = none) :
    (∀ j ∈ settingKeys, (runEffects (toggleSetting k) s).getOwn j = s.getOwn j) ∧
    (runEffects (toggleSetting k) s).keys.Perm (k :: s.keys) ∧
    (runEffects (toggleSetting k) s).getOwn k
      = some (.bool (decide (k ∉ Obj.objectPrototypeKeys))) ∧
    ¬ IsSettings (runEffects (toggleSetting k) s) := by
  have hnot : k ∉ s.keys := (Obj.getOwn_eq_none_iff s k).1 hk
  have hkeys : (runEffects (toggleSetting k) s).keys = s.keys ++ [k] := by
    rw [runEffects_toggleSetting]
    exact Obj.keys_set_of_not_mem s _ hnot
  refine ⟨?_, ?_, ?_, ?_⟩
  · intro j hj
    have hjk : j ≠ k := fun e => hnot (e ▸ hs.mem_keys hj)
    rw [runEffects_toggleSetting]
    exact Obj.getOwn_set_other s _ hjk
  · rw [hkeys]
    exact List.perm_append_comm
  · rw [runEffects_toggleSetting, Obj.getOwn_set_same]
    by_cases hp : k ∈ Obj.objectPrototypeKeys
    · simp [Obj.get, hk, Obj.objectPrototypeGet, hp, JsVal.not, JsVal.truthy]
    · simp [Obj.get, hk, Obj.objectPrototypeGet, hp, JsVal.not, JsVal.truthy]
  · intro h
    have h1 := h.1.length_eq
    have h2 := hs.1.length_eq
    rw [hkeys, List.length_append, h2] at h1
    simp [settingKeys] at h1

/-- Witness of amended C10 at the initial settings and the key 'theme', which
no object inherits. -/
theorem toggleSetting_unknown_key_witness :
    IsSettings initialSettings ∧ initialSettings.getOwn "theme" = none ∧
    (runEffects (toggleSetting "theme") initialSettings).getOwn "theme" = some (.bool true) := by
  have h := toggleSetting_unknown_key initialSettings isSettings_initialSettings "theme"
    (by decide)
  exact ⟨isSettings_initialSettings, by decide, by rw [h.2.2.1]; decide⟩

end SettingsScreen
